import Mathlib

/-!
Verification of the token-generation flow of Reddit-Fetch
(src/reddit_fetch/generate_tokens.py), shallowly embedded in Lean.

The embedding models the Python module faithfully:
* JSON documents are the inductive type `J` (numbers restricted to the
  integers actually exercised; no floating point appears in any claim).
* Python dynamic-typing behaviour is modelled explicitly: the membership
  test `"k" in x` and the subscript `x["k"]` are partial operations that
  raise `TypeError` / `KeyError` on the same inputs as CPython, returned
  through `Except PyError`.
* The token file is modelled at the granularity the module observes it:
  absent, present-but-unparseable (json.load raises JSONDecodeError), or
  present with a parsed JSON document.
* The single inbound redirect request is given by its request path; the
  orchestrator's interaction with the token endpoint is given by the
  `HttpResponse` the POST would return.
-/

namespace RedditFetch

/-- JSON values, as produced by Python's json.load. Numbers are modelled as
integers (the flow never manipulates fractional numbers). -/
inductive J where
  | null
  | bool (b : Bool)
  | num (n : Int)
  | str (s : String)
  | arr (xs : List J)
  | obj (fields : List (String × J))

/-- Python exceptions that the module can raise and does not catch
everywhere; ValueError stands for json.JSONDecodeError as well (it is its
superclass and the except clause in load_existing_tokens names both). -/
inductive PyError where
  | typeError
  | keyError
  | valueError
deriving DecidableEq, Repr

/-- Boolean test that a pattern is a prefix of a character list. -/
def listStartsWith : List Char → List Char → Bool
  | [], _ => true
  | _ :: _, [] => false
  | p :: ps, c :: cs => p == c && listStartsWith ps cs

/-- Boolean test that a pattern occurs contiguously inside a character
list (Python substring containment `pat in s`). -/
def listHasSub (pat : List Char) : List Char → Bool
  | [] => pat.isEmpty
  | c :: cs => listStartsWith pat (c :: cs) || listHasSub pat cs

/-- Python substring containment on strings. -/
def strContains (hay pat : String) : Bool :=
  listHasSub pat.data hay.data

/-- Last-binding-wins lookup in a JSON object's field list: json.load builds
a Python dict by successive assignment, so a later duplicate key shadows an
earlier one. -/
def lookupField (fields : List (String × J)) (key : String) : Option J :=
  fields.foldl (fun acc kv => if kv.1 == key then some kv.2 else acc) none

/-- Python equality of a json.load value against a string literal: true
exactly for the equal string (no other json type compares equal to str). -/
def pyEqStr (key : String) : J → Bool
  | .str s => s == key
  | _ => false

/-- Python membership `key in x` for a string key against a json.load
result: dicts test keys, lists test elements, strings test substrings, and
None/bool/number raise TypeError (argument not iterable). -/
def pyContains (key : String) : J → Except PyError Bool
  | .obj fields => .ok (fields.any (fun kv => kv.1 == key))
  | .arr xs => .ok (xs.any (pyEqStr key))
  | .str s => .ok (strContains s key)
  | .null => .error .typeError
  | .bool _ => .error .typeError
  | .num _ => .error .typeError

/-- Python subscript `x[key]` for a string key: KeyError on a dict without
the key, TypeError on every non-dict json.load result (string and list
indices must be integers; None/bool/number are not subscriptable). -/
def pySubscript (x : J) (key : String) : Except PyError J :=
  match x with
  | .obj fields =>
      match lookupField fields key with
      | some v => .ok v
      | none => .error .keyError
  | _ => .error .typeError

mutual

/-- Python str() of a json.load value, as interpolated by an f-string.
Scalars match CPython exactly; containers are rendered structurally (the
module only ever formats the scalar `error` / `message` fields, so the
container cases never reach an output the claims observe; repr-quoting of
nested strings is elided). -/
def pyStr : J → String
  | .null => "None"
  | .bool true => "True"
  | .bool false => "False"
  | .num n => toString n
  | .str s => s
  | .arr xs => "[" ++ ", ".intercalate (pyStrList xs) ++ "]"
  | .obj fields => "\x7b" ++ ", ".intercalate (pyStrFields fields) ++ "\x7d"

/-- Renderings of the elements of a json array (helper for pyStr). -/
def pyStrList : List J → List String
  | [] => []
  | x :: xs => pyStr x :: pyStrList xs

/-- Renderings of the fields of a json object (helper for pyStr). -/
def pyStrFields : List (String × J) → List String
  | [] => []
  | kv :: fs => (kv.1 ++ ": " ++ pyStr kv.2) :: pyStrFields fs

end

/-- Python str.strip(): drop whitespace from both ends. -/
def pyStrip (s : String) : String :=
  ⟨(((s.data.dropWhile Char.isWhitespace).reverse.dropWhile Char.isWhitespace).reverse)⟩

/-- Content of an existing token file, at the granularity json.load
observes it: either unparseable (json.load raises JSONDecodeError) or a
parsed JSON document. -/
inductive Parsed where
  | malformed
  | value (j : J)

/-- State of the token file: absent, or present with the given content. -/
abbrev FileState := Option Parsed

/-- load_existing_tokens (generate_tokens.py lines 47-58): if tokens.json
exists, json.load it and test `"refresh_token" in tokens`, catching only
(json.JSONDecodeError, ValueError); the membership test's TypeError on a
non-container document is NOT caught and propagates to the caller. -/
def load_existing_tokens (fs : FileState) : Except PyError Bool :=
  match fs with
  | none => .ok false
  | some .malformed => .ok false
  | some (.value j) =>
      match pyContains "refresh_token" j with
      | .ok true => .ok true
      | .ok false => .ok false
      | .error e => .error e

/-- Split a character list on a separator character (Python str.split with
a single-character separator): always at least one group, empty groups
kept. -/
def splitOnChar (sep : Char) : List Char → List (List Char)
  | [] => [[]]
  | c :: rest =>
      let groups := splitOnChar sep rest
      if c = sep then [] :: groups
      else
        match groups with
        | [] => [[c]]
        | g :: gs => (c :: g) :: gs

/-- urlparse(path).query: the part of the request path after the first
question mark, excluding any fragment. Percent-decoding is not modelled
(the provider's redirect carries plain alphanumeric code and state
values). -/
def urlQuery (path : String) : String :=
  let beforeFrag := (splitOnChar '#' path.data).headI
  match splitOnChar '?' beforeFrag with
  | _ :: rest@(_ :: _) => ⟨"?".data.intercalate rest⟩
  | _ => ""

/-- parse_qsl with the default keep_blank_values=False: split the query on
ampersands, split each field at its first equals sign, drop fields with no
equals sign or an empty value. -/
def parse_qsl (query : String) : List (String × String) :=
  (splitOnChar '&' query.data).filterMap fun part =>
    match splitOnChar '=' part with
    | [] => none
    | [_] => none
    | name :: rest =>
        let value : List Char := "=".data.intercalate rest
        if value.isEmpty then none else some (⟨name⟩, ⟨value⟩)

/-- Insert one name/value pair into the accumulated multi-dict, appending
to the value list of an existing key (dict of lists, insertion order). -/
def qsInsert (acc : List (String × List String)) (kv : String × String) :
    List (String × List String) :=
  if acc.any (fun p => p.1 == kv.1) then
    acc.map (fun p => if p.1 == kv.1 then (p.1, p.2 ++ [kv.2]) else p)
  else acc ++ [(kv.1, [kv.2])]

/-- parse_qs: group the parsed query pairs into a dict from names to lists
of values. -/
def parse_qs (query : String) : List (String × List String) :=
  (parse_qsl query).foldl qsInsert []

/-- Dict lookup in the parse_qs result. -/
def qsLookup (key : String) (qc : List (String × List String)) : Option (List String) :=
  (qc.find? (fun p => p.1 == key)).map (fun p => p.2)

/-- Result of AuthHandler.do_GET: the HTTP status and body sent to the
browser, and the value of the global auth_code afterwards. -/
structure GetResult where
  status : Nat
  body : String
  auth_code : Option String

/-- AuthHandler.do_GET (generate_tokens.py lines 27-39): parse the query
of the request path; if a code parameter is present, store its first value
stripped of whitespace in the global auth_code and answer 200; otherwise
answer 400 and leave auth_code unchanged. -/
def do_GET (path : String) (auth0 : Option String) : GetResult :=
  match qsLookup "code" (parse_qs (urlQuery path)) with
  | some (v :: _) =>
      { status := 200
        body := "Authorization successful! You can close this tab."
        auth_code := some (pyStrip v) }
  | some [] =>
      -- unreachable: parse_qs never produces an empty value list
      -- (parse_qs_values_ne_nil below); kept total for the embedding.
      { status := 400, body := "Error: Authorization code not found.", auth_code := auth0 }
  | none =>
      { status := 400, body := "Error: Authorization code not found.", auth_code := auth0 }

/-- The four provider credentials, stripped at load time (generate_tokens.py
lines 16-19). -/
structure Config where
  client_id : String
  client_secret : String
  redirect_uri : String
  user_agent : String

/-- Module-level credential loading: each field is read from the
environment, defaulting to the empty string, and stripped of surrounding
whitespace. No emptiness check is performed. -/
def loadCredentials (env : String → Option String) : Config :=
  { client_id := pyStrip ((env "CLIENT_ID").getD "")
    client_secret := pyStrip ((env "CLIENT_SECRET").getD "")
    redirect_uri := pyStrip ((env "REDIRECT_URI").getD "")
    user_agent := pyStrip ((env "USER_AGENT").getD "") }

/-- The authorization URL built in get_tokens (lines 69-72): an f-string
interpolating client_id and redirect_uri around fixed literal text,
including the constant state token RANDOM_STRING. -/
def authorization_url (cfg : Config) : String :=
  "https://www.reddit.com/api/v1/authorize?client_id=" ++ cfg.client_id ++
  "&response_type=code&state=RANDOM_STRING&redirect_uri=" ++ cfg.redirect_uri ++
  "&duration=permanent&scope=identity history read save"

/-- The busy-wait loop `while auth_code is None: time.sleep(0.1)` observed
for a bounded number of polls: the loop exits with the code when the global
is set and otherwise keeps polling; after `fuel` polls of an unset global
it is still waiting (the code itself loops without bound). -/
def busy_wait (auth_code : Option String) : Nat → Option String
  | 0 => auth_code
  | n + 1 =>
      match auth_code with
      | some c => some c
      | none => busy_wait auth_code n

/-- What requests.post to the token endpoint returned: status code, the
body as response.json() would parse it, and the raw body text. -/
structure HttpResponse where
  status : Nat
  body : Parsed
  text : String

/-- The error_detail string built in the non-200 branch (lines 108-115):
from a parsed json object, the error field (default Unknown) and the
message field when present; a bare except turns every failure (unparseable
body, non-dict json) into the raw response text. -/
def error_detail (resp : HttpResponse) : String :=
  match resp.body with
  | .value (J.obj fields) =>
      let base := "\nError: " ++ pyStr ((lookupField fields "error").getD (J.str "Unknown"))
      match lookupField fields "message" with
      | some m => base ++ "\nMessage: " ++ pyStr m
      | none => base
  | _ => "\nResponse: " ++ resp.text

/-- How one run of get_tokens ends. -/
inductive Outcome where
  | skipped
  | stillWaiting
  | uncaught (e : PyError)
  | saved
  | failed (status : Nat) (detail : String) (unauthorizedHint : Bool)

/-- Observable result of one run of get_tokens: the final outcome, the
token file afterwards, whether the browser was pointed at the authorization
URL (and at which), and whether the token-exchange POST was issued. -/
structure RunResult where
  outcome : Outcome
  fileAfter : FileState
  openedBrowser : Bool
  authorizationUrl : Option String
  postedExchange : Bool

/-- get_tokens (generate_tokens.py lines 60-125), as a function of the
initial token file, the single inbound redirect request (none if no request
ever arrives), and the token endpoint's response. Mirrors the source order:
the store check first (early return); then the listener thread, the
authorization URL opened in the browser, the busy wait on auth_code (which
never terminates when no request with a code arrives); then the POST; on
status 200 response.json() and the refresh_token subscript (uncaught
ValueError / KeyError / TypeError as in Python), then the write of the
single-field object; on any other status the error_detail reporting with
the extra 401 hint block, and no write. -/
def get_tokens (cfg : Config) (fs : FileState) (request : Option String)
    (resp : HttpResponse) : RunResult :=
  match load_existing_tokens fs with
  | .error e =>
      { outcome := .uncaught e, fileAfter := fs, openedBrowser := false
        authorizationUrl := none, postedExchange := false }
  | .ok true =>
      { outcome := .skipped, fileAfter := fs, openedBrowser := false
        authorizationUrl := none, postedExchange := false }
  | .ok false =>
      let url := authorization_url cfg
      let authCode : Option String :=
        match request with
        | none => none
        | some path => (do_GET path none).auth_code
      match authCode with
      | none =>
          { outcome := .stillWaiting, fileAfter := fs, openedBrowser := true
            authorizationUrl := some url, postedExchange := false }
      | some _ =>
          if resp.status == 200 then
            match resp.body with
            | .malformed =>
                { outcome := .uncaught .valueError, fileAfter := fs, openedBrowser := true
                  authorizationUrl := some url, postedExchange := true }
            | .value tokens =>
                match pySubscript tokens "refresh_token" with
                | .error e =>
                    { outcome := .uncaught e, fileAfter := fs, openedBrowser := true
                      authorizationUrl := some url, postedExchange := true }
                | .ok v =>
                    { outcome := .saved
                      fileAfter := some (.value (J.obj [("refresh_token", v)]))
                      openedBrowser := true, authorizationUrl := some url
                      postedExchange := true }
          else
            { outcome := .failed resp.status (error_detail resp) (resp.status == 401)
              fileAfter := fs, openedBrowser := true
              authorizationUrl := some url, postedExchange := true }

end RedditFetch

namespace RedditFetch

example : load_existing_tokens (some (.value (J.obj [("refresh_token", J.str "r")]))) = .ok true := rfl
example : load_existing_tokens (some .malformed) = .ok false := rfl
example : load_existing_tokens (some (.value (J.num 5))) = .error .typeError := rfl
example : urlQuery "/?code=abc123&state=RANDOM_STRING" = "code=abc123&state=RANDOM_STRING" := rfl
example : parse_qs "code=abc123&state=RANDOM_STRING" =
    [("code", ["abc123"]), ("state", ["RANDOM_STRING"])] := rfl
example : (do_GET "/?code=abc123&state=RANDOM_STRING" none).auth_code = some "abc123" := rfl
example : (do_GET "/?error=access_denied" none).status = 400 := rfl
example : parse_qs "code=" = [] := rfl

/-- qsInsert preserves the invariant that every value list is nonempty. -/
lemma qsInsert_values_ne_nil (acc : List (String × List String)) (kv : String × String)
    (h : ∀ p ∈ acc, p.2 ≠ []) : ∀ p ∈ qsInsert acc kv, p.2 ≠ [] := by
  intro p hp
  unfold qsInsert at hp
  split at hp
  · obtain ⟨q, hq, hpq⟩ := List.mem_map.mp hp
    by_cases hq1 : q.1 == kv.1
    · simp only [hq1, if_true] at hpq
      subst hpq
      simp
    · simp only [hq1, if_false] at hpq
      subst hpq
      exact h q hq
  · rcases List.mem_append.mp hp with h1 | h2
    · exact h p h1
    · simp only [List.mem_singleton] at h2
      subst h2
      simp

/-- Every value list produced by parse_qs is nonempty, so the subscript
query_components of code at index 0 in do_GET cannot fail. -/
lemma parse_qs_values_ne_nil (q : String) : ∀ p ∈ parse_qs q, p.2 ≠ [] := by
  have general : ∀ (l : List (String × String)) (acc : List (String × List String)),
      (∀ p ∈ acc, p.2 ≠ []) → ∀ p ∈ l.foldl qsInsert acc, p.2 ≠ [] := by
    intro l
    induction l with
    | nil => intro acc hacc; simpa using hacc
    | cons kv rest ih =>
        intro acc hacc
        exact ih (qsInsert acc kv) (qsInsert_values_ne_nil acc kv hacc)
  exact general (parse_qsl q) [] (by simp)

/-- The busy-wait loop on an unset auth_code is still waiting after any
number of polls. -/
lemma busy_wait_none : ∀ n, busy_wait (none : Option String) n = none
  | 0 => rfl
  | n + 1 => busy_wait_none n

/-- Whenever the store check reports no stored token, get_tokens opens the
browser at the authorization URL built from the configuration, with no
precondition on the credential fields. -/
lemma get_tokens_opens_browser (cfg : Config) (fs : FileState) (request : Option String)
    (resp : HttpResponse) (h : load_existing_tokens fs = .ok false) :
    (get_tokens cfg fs request resp).openedBrowser = true ∧
    (get_tokens cfg fs request resp).authorizationUrl = some (authorization_url cfg) := by
  unfold get_tokens
  rw [h]
  dsimp only
  split
  · exact ⟨rfl, rfl⟩
  · split
    · split
      · exact ⟨rfl, rfl⟩
      · split
        · exact ⟨rfl, rfl⟩
        · exact ⟨rfl, rfl⟩
    · exact ⟨rfl, rfl⟩

/-- C1: if the token file holds parseable JSON with a refresh_token field,
every run of get_tokens returns straight after the store check: the outcome
is the early return, the browser is never opened, the token-exchange POST
is never issued, and the token file is left unchanged. -/
theorem C1_existing_token_short_circuits (cfg : Config) (fields : List (String × J))
    (fs : FileState) (request : Option String) (resp : HttpResponse)
    (hfs : fs = some (.value (J.obj fields)))
    (hkey : fields.any (fun kv => kv.1 == "refresh_token") = true) :
    (get_tokens cfg fs request resp).outcome = .skipped ∧
    (get_tokens cfg fs request resp).fileAfter = fs ∧
    (get_tokens cfg fs request resp).openedBrowser = false ∧
    (get_tokens cfg fs request resp).postedExchange = false ∧
    (get_tokens cfg fs request resp).authorizationUrl = none := by
  subst hfs
  simp [get_tokens, load_existing_tokens, pyContains, hkey]

/-- Witness for C1 at a concrete stored record and run. -/
theorem C1_existing_token_short_circuits_witness :
    (get_tokens ⟨"id", "secret", "http://localhost:8080", "ua"⟩
        (some (.value (J.obj [("refresh_token", J.str "tok")])))
        (some "/?code=abc123&state=RANDOM_STRING")
        ⟨200, .value (J.obj [("refresh_token", J.str "fresh")]), ""⟩).outcome = .skipped ∧
    (get_tokens ⟨"id", "secret", "http://localhost:8080", "ua"⟩
        (some (.value (J.obj [("refresh_token", J.str "tok")])))
        (some "/?code=abc123&state=RANDOM_STRING")
        ⟨200, .value (J.obj [("refresh_token", J.str "fresh")]), ""⟩).fileAfter
      = some (.value (J.obj [("refresh_token", J.str "tok")])) ∧
    (get_tokens ⟨"id", "secret", "http://localhost:8080", "ua"⟩
        (some (.value (J.obj [("refresh_token", J.str "tok")])))
        (some "/?code=abc123&state=RANDOM_STRING")
        ⟨200, .value (J.obj [("refresh_token", J.str "fresh")]), ""⟩).openedBrowser = false ∧
    (get_tokens ⟨"id", "secret", "http://localhost:8080", "ua"⟩
        (some (.value (J.obj [("refresh_token", J.str "tok")])))
        (some "/?code=abc123&state=RANDOM_STRING")
        ⟨200, .value (J.obj [("refresh_token", J.str "fresh")]), ""⟩).postedExchange = false ∧
    (get_tokens ⟨"id", "secret", "http://localhost:8080", "ua"⟩
        (some (.value (J.obj [("refresh_token", J.str "tok")])))
        (some "/?code=abc123&state=RANDOM_STRING")
        ⟨200, .value (J.obj [("refresh_token", J.str "fresh")]), ""⟩).authorizationUrl = none :=
  C1_existing_token_short_circuits _ _ _ _ _ rfl rfl

/-- C2 counterexample: a stored record whose refresh_token field is the
empty string makes load_existing_tokens report true, where the claim says
the check must return false on an empty refresh_token. -/
theorem C2_empty_token_accepted_counterexample :
    load_existing_tokens (some (.value (J.obj [("refresh_token", J.str "")]))) = .ok true := rfl

/-- C2 amended: load_existing_tokens reports true exactly when the file
holds parseable JSON on which the Python membership test of refresh_token
succeeds — for a JSON object, exactly when the key is present, with no
constraint on the value (an empty string passes). -/
theorem C2_store_check_characterization (fs : FileState) :
    load_existing_tokens fs = .ok true ↔
      ∃ j, fs = some (.value j) ∧ pyContains "refresh_token" j = .ok true := by
  constructor
  · intro h
    match fs with
    | none => simp [load_existing_tokens] at h
    | some .malformed => simp [load_existing_tokens] at h
    | some (.value j) =>
        refine ⟨j, rfl, ?_⟩
        simp only [load_existing_tokens] at h
        rcases hc : pyContains "refresh_token" j with e | b
        · rw [hc] at h; simp at h
        · cases b
          · rw [hc] at h; simp at h
          · rfl
  · rintro ⟨j, rfl, hc⟩
    simp [load_existing_tokens, hc]

/-- Witness for C2's amended characterization at a concrete record. -/
theorem C2_store_check_characterization_witness :
    load_existing_tokens (some (.value (J.obj [("refresh_token", J.str "r")]))) = .ok true :=
  (C2_store_check_characterization _).mpr ⟨J.obj [("refresh_token", J.str "r")], rfl, rfl⟩

/-- C3: unparseable files and objects missing the field are downgraded to
false, but a token file whose JSON document is a bare number or null makes
the membership test raise TypeError, which the except clause (catching only
JSONDecodeError and ValueError) does not stop: an exception escapes the
store, against both the claim and the code's own corrupted-file handling. -/
theorem C3_typeError_escapes_store :
    load_existing_tokens (some .malformed) = .ok false ∧
    load_existing_tokens (some (.value (J.obj [("access_token", J.str "a")]))) = .ok false ∧
    load_existing_tokens (some (.value (J.num 5))) = .error .typeError ∧
    load_existing_tokens (some (.value J.null)) = .error .typeError :=
  ⟨rfl, rfl, rfl, rfl⟩

/-- C4 counterexample: on the redirect GET /?error=access_denied the
listener answers 400 and leaves auth_code unset, and the flow does not
resolve any failure — the run is still stuck in the busy wait (shown here
after 600 polls) instead of resolving MissingCode. -/
theorem C4_no_missing_code_resolution_counterexample :
    (do_GET "/?error=access_denied" none).status = 400 ∧
    (do_GET "/?error=access_denied" none).auth_code = none ∧
    (get_tokens ⟨"id", "secret", "http://localhost:8080", "ua"⟩ none
        (some "/?error=access_denied") ⟨200, .value (J.obj []), ""⟩).outcome = .stillWaiting ∧
    busy_wait none 600 = none :=
  ⟨rfl, rfl, rfl, busy_wait_none 600⟩

/-- C4 amended: a redirect without a code parameter is answered 400 with
the error page and auth_code left unchanged, and the orchestrator then
never resolves — the busy wait on the unset auth_code continues after any
number of polls; a redirect GET /?code=abc123&state=RANDOM_STRING is
answered 200 and captures the code abc123. -/
theorem C4_callback_classification :
    (∀ path auth0, qsLookup "code" (parse_qs (urlQuery path)) = none →
        do_GET path auth0 = ⟨400, "Error: Authorization code not found.", auth0⟩) ∧
    do_GET "/?code=abc123&state=RANDOM_STRING" none =
      ⟨200, "Authorization successful! You can close this tab.", some "abc123"⟩ ∧
    ∀ n, busy_wait none n = none := by
  refine ⟨?_, rfl, busy_wait_none⟩
  intro path auth0 h
  simp [do_GET, h]

/-- Witness for C4's amended statement at the access-denied redirect. -/
theorem C4_callback_classification_witness :
    do_GET "/?error=access_denied" none =
      ⟨400, "Error: Authorization code not found.", none⟩ ∧
    busy_wait none 7 = none :=
  ⟨C4_callback_classification.1 "/?error=access_denied" none rfl,
   C4_callback_classification.2.2 7⟩

/-- C5 counterexample: with no inbound redirect at all the run does not
terminate with a Timeout failure within any window — it is still waiting
after 600 polls (a minute at the 0.1 s poll interval) and the busy wait on
the unset auth_code never exits. -/
theorem C5_no_timeout_counterexample :
    (get_tokens ⟨"id", "secret", "http://localhost:8080", "ua"⟩ none none
        ⟨200, .value (J.obj []), ""⟩).outcome = .stillWaiting ∧
    busy_wait none 600 = none :=
  ⟨rfl, busy_wait_none 600⟩

/-- C5 amended: the code has no timeout: whenever the store check finds no
token and no redirect ever arrives, the run is stuck in the busy wait (for
every poll bound), never issues the token-exchange POST, and no Timeout
failure exists anywhere in the flow. -/
theorem C5_waits_forever (cfg : Config) (fs : FileState) (resp : HttpResponse)
    (h : load_existing_tokens fs = .ok false) :
    (get_tokens cfg fs none resp).outcome = .stillWaiting ∧
    (get_tokens cfg fs none resp).postedExchange = false ∧
    ∀ n, busy_wait none n = none := by
  refine ⟨?_, ?_, busy_wait_none⟩ <;> simp [get_tokens, h]

/-- Witness for C5's amended statement at an absent token file. -/
theorem C5_waits_forever_witness :
    (get_tokens ⟨"id", "secret", "http://localhost:8080", "ua"⟩ none none
        ⟨401, .value (J.obj []), ""⟩).outcome = .stillWaiting ∧
    (get_tokens ⟨"id", "secret", "http://localhost:8080", "ua"⟩ none none
        ⟨401, .value (J.obj []), ""⟩).postedExchange = false ∧
    ∀ n, busy_wait none n = none :=
  C5_waits_forever _ _ _ rfl

/-- C6 counterexample: with every credential field empty (no environment
variables set) the orchestrator still opens the authorization URL and still
issues the token-exchange POST — there is no fail-fast precondition check
and no ConfigInvalid failure. -/
theorem C6_no_config_check_counterexample :
    (loadCredentials (fun _ => none)).client_id = "" ∧
    (get_tokens (loadCredentials (fun _ => none)) none
        (some "/?code=abc123&state=RANDOM_STRING")
        ⟨200, .value (J.obj [("refresh_token", J.str "r")]), ""⟩).openedBrowser = true ∧
    (get_tokens (loadCredentials (fun _ => none)) none
        (some "/?code=abc123&state=RANDOM_STRING")
        ⟨200, .value (J.obj [("refresh_token", J.str "r")]), ""⟩).postedExchange = true :=
  ⟨rfl, rfl, rfl⟩

/-- C6 amended: the credential fields are stripped of whitespace at load
time but never validated: whatever the configuration (empty fields
included), once the store check finds no token the orchestrator opens the
browser at the authorization URL built from that configuration. -/
theorem C6_no_precondition_on_config (cfg : Config) (fs : FileState)
    (request : Option String) (resp : HttpResponse)
    (h : load_existing_tokens fs = .ok false) :
    (get_tokens cfg fs request resp).openedBrowser = true ∧
    (get_tokens cfg fs request resp).authorizationUrl = some (authorization_url cfg) :=
  get_tokens_opens_browser cfg fs request resp h

/-- Witness for C6's amended statement with all-empty credentials. -/
theorem C6_no_precondition_on_config_witness :
    (get_tokens ⟨"", "", "", ""⟩ none none ⟨200, .value (J.obj []), ""⟩).openedBrowser = true ∧
    (get_tokens ⟨"", "", "", ""⟩ none none ⟨200, .value (J.obj []), ""⟩).authorizationUrl
      = some (authorization_url ⟨"", "", "", ""⟩) :=
  C6_no_precondition_on_config _ _ _ _ rfl

/-- C7 counterexample: on an HTTP 200 response whose JSON body has no
refresh_token field, the run ends in an uncaught KeyError from the bare
subscript tokens of refresh_token — an unclassified exception, not a
classified MalformedResponse failure — though the token file is indeed
left untouched. -/
theorem C7_keyError_counterexample :
    (get_tokens ⟨"id", "secret", "http://localhost:8080", "ua"⟩ none
        (some "/?code=abc123&state=RANDOM_STRING")
        ⟨200, .value (J.obj [("access_token", J.str "a_1"), ("expires_in", J.num 3600)]),
          ""⟩).outcome = .uncaught .keyError ∧
    (get_tokens ⟨"id", "secret", "http://localhost:8080", "ua"⟩ none
        (some "/?code=abc123&state=RANDOM_STRING")
        ⟨200, .value (J.obj [("access_token", J.str "a_1"), ("expires_in", J.num 3600)]),
          ""⟩).fileAfter = none :=
  ⟨rfl, rfl⟩

/-- C7 amended: for every HTTP 200 token-exchange response whose JSON body
is an object without a refresh_token field, get_tokens raises an uncaught
KeyError (there is no MalformedResponse classification in the code) and no
record is persisted: the token file is exactly as before the run. -/
theorem C7_missing_field_uncaught_keyError (cfg : Config) (fs : FileState) (path c : String)
    (resp : HttpResponse) (fields : List (String × J))
    (hload : load_existing_tokens fs = .ok false)
    (hcode : (do_GET path none).auth_code = some c)
    (hstatus : resp.status = 200)
    (hbody : resp.body = .value (J.obj fields))
    (hmissing : lookupField fields "refresh_token" = none) :
    (get_tokens cfg fs (some path) resp).outcome = .uncaught .keyError ∧
    (get_tokens cfg fs (some path) resp).fileAfter = fs := by
  unfold get_tokens
  rw [hload]
  dsimp only
  rw [hcode, hstatus, hbody]
  simp [pySubscript, hmissing]

/-- Witness for C7's amended statement at a concrete 200 response. -/
theorem C7_missing_field_uncaught_keyError_witness :
    (get_tokens ⟨"id", "secret", "http://localhost:8080", "ua"⟩ none
        (some "/?code=abc123&state=RANDOM_STRING")
        ⟨200, .value (J.obj [("access_token", J.str "a_1")]), ""⟩).outcome
      = .uncaught .keyError ∧
    (get_tokens ⟨"id", "secret", "http://localhost:8080", "ua"⟩ none
        (some "/?code=abc123&state=RANDOM_STRING")
        ⟨200, .value (J.obj [("access_token", J.str "a_1")]), ""⟩).fileAfter = none :=
  C7_missing_field_uncaught_keyError _ _ _ "abc123" _ _ rfl rfl rfl rfl rfl

/-- C8: for every token-exchange response with a non-200 status, once a
code was captured, get_tokens reports the classified failure — carrying the
status, the error_detail text extracted from the body, and the extra
actionable 401 hint block exactly when the status is 401 — and never writes
the token file: it stays absent or byte-for-byte as before. -/
theorem C8_non200_reports_and_preserves_file (cfg : Config) (fs : FileState)
    (path c : String) (resp : HttpResponse)
    (hload : load_existing_tokens fs = .ok false)
    (hcode : (do_GET path none).auth_code = some c)
    (hstatus : resp.status ≠ 200) :
    (get_tokens cfg fs (some path) resp).outcome
      = .failed resp.status (error_detail resp) (resp.status == 401) ∧
    (get_tokens cfg fs (some path) resp).fileAfter = fs ∧
    (get_tokens cfg fs (some path) resp).postedExchange = true := by
  unfold get_tokens
  rw [hload]
  dsimp only
  rw [hcode]
  have hbeq : (resp.status == 200) = false := by
    simpa using hstatus
  rw [hbeq]
  exact ⟨rfl, rfl, rfl⟩

/-- Witness for C8 at HTTP 401 with body error invalid_grant: the failure
is reported with status 401, the diagnostic text naming invalid_grant, and
the 401 hint block, with the absent token file untouched. -/
theorem C8_non200_reports_and_preserves_file_witness :
    (get_tokens ⟨"id", "secret", "http://localhost:8080", "ua"⟩ none
        (some "/?code=abc123&state=RANDOM_STRING")
        ⟨401, .value (J.obj [("error", J.str "invalid_grant")]), ""⟩).outcome
      = .failed 401 ("\nError: invalid_grant") true ∧
    (get_tokens ⟨"id", "secret", "http://localhost:8080", "ua"⟩ none
        (some "/?code=abc123&state=RANDOM_STRING")
        ⟨401, .value (J.obj [("error", J.str "invalid_grant")]), ""⟩).fileAfter = none := by
  have h := C8_non200_reports_and_preserves_file ⟨"id", "secret", "http://localhost:8080", "ua"⟩
    none "/?code=abc123&state=RANDOM_STRING" "abc123"
    ⟨401, .value (J.obj [("error", J.str "invalid_grant")]), ""⟩ rfl rfl (by decide)
  refine ⟨?_, h.2.1⟩
  rw [h.1]
  simp [error_detail, lookupField, pyStr]

/-- C9: for every HTTP 200 token-exchange response whose JSON body holds a
refresh_token field (other fields allowed alongside), get_tokens persists
exactly the single-field object mapping refresh_token to that value,
discarding every other response field, and reports success. -/
theorem C9_persists_single_field_record (cfg : Config) (fs : FileState) (path c : String)
    (resp : HttpResponse) (fields : List (String × J)) (v : J)
    (hload : load_existing_tokens fs = .ok false)
    (hcode : (do_GET path none).auth_code = some c)
    (hstatus : resp.status = 200)
    (hbody : resp.body = .value (J.obj fields))
    (hv : lookupField fields "refresh_token" = some v) :
    (get_tokens cfg fs (some path) resp).outcome = .saved ∧
    (get_tokens cfg fs (some path) resp).fileAfter
      = some (.value (J.obj [("refresh_token", v)])) := by
  unfold get_tokens
  rw [hload]
  dsimp only
  rw [hcode, hstatus, hbody]
  simp [pySubscript, hv]

/-- Witness for C9 at the response body holding refresh_token r_xyz next to
access_token and expires_in: exactly the one-field record is written. -/
theorem C9_persists_single_field_record_witness :
    (get_tokens ⟨"id", "secret", "http://localhost:8080", "ua"⟩ none
        (some "/?code=abc123&state=RANDOM_STRING")
        ⟨200, .value (J.obj [("refresh_token", J.str "r_xyz"), ("access_token", J.str "a_1"),
          ("expires_in", J.num 3600)]), ""⟩).outcome = .saved ∧
    (get_tokens ⟨"id", "secret", "http://localhost:8080", "ua"⟩ none
        (some "/?code=abc123&state=RANDOM_STRING")
        ⟨200, .value (J.obj [("refresh_token", J.str "r_xyz"), ("access_token", J.str "a_1"),
          ("expires_in", J.num 3600)]), ""⟩).fileAfter
      = some (.value (J.obj [("refresh_token", J.str "r_xyz")])) :=
  C9_persists_single_field_record _ _ _ "abc123" _ _ (J.str "r_xyz") rfl rfl rfl rfl rfl

/-- C10: the anti-forgery state embedded in the authorization URL is the
fixed literal RANDOM_STRING for every configuration — the URL text always
contains the literal run state=RANDOM_STRING between the fixed
response_type and redirect_uri parts — and the URL is a function of
client_id and redirect_uri alone, so two runs with the same configuration
open the identical URL (the state token never varies). -/
theorem C10_state_token_is_constant (cfg : Config) :
    (∃ pre post : List Char,
        (authorization_url cfg).data =
          pre ++ ("&response_type=code&state=RANDOM_STRING&redirect_uri=").data ++ post) ∧
    (∀ cfg₂ : Config, cfg.client_id = cfg₂.client_id → cfg.redirect_uri = cfg₂.redirect_uri →
        authorization_url cfg = authorization_url cfg₂) := by
  constructor
  · refine ⟨("https://www.reddit.com/api/v1/authorize?client_id=" ++ cfg.client_id).data,
      (cfg.redirect_uri ++ "&duration=permanent&scope=identity history read save").data, ?_⟩
    simp [authorization_url, String.data_append]
  · intro cfg₂ h1 h2
    unfold authorization_url
    rw [h1, h2]

/-- Witness for C10: two runs agreeing on client_id and redirect_uri open
the identical URL even when secret and user agent differ, and the URL
contains the constant state token. -/
theorem C10_state_token_is_constant_witness :
    authorization_url ⟨"abc", "secret1", "http://localhost:8080", "agent1"⟩ =
      authorization_url ⟨"abc", "secret2", "http://localhost:8080", "agent2"⟩ ∧
    ∃ pre post : List Char,
        (authorization_url ⟨"abc", "secret1", "http://localhost:8080", "agent1"⟩).data =
          pre ++ ("&response_type=code&state=RANDOM_STRING&redirect_uri=").data ++ post :=
  ⟨(C10_state_token_is_constant _).2 _ rfl rfl, (C10_state_token_is_constant _).1⟩

end RedditFetch
